import Mathlib

/-!
Shallow embedding of the SME-IR-TOOLKIT repository's three command-line
tools, for checking spec claims:

* `src/checks/email_dmarc_spf_checker.py` — DNS email-authentication
  posture checker (SPF / DMARC / DKIM record selection and assessment);
* `src/score_ir_readiness.py` — CSV-driven incident-response readiness
  scorer (validation, category aggregation, normalisation, maturity);
* `src/tools/generator/build_raci_from_yaml.py` — YAML-to-spreadsheet
  RACI matrix generator.

Text values are modelled as `List Char` (written `Str` below) so that
all string operations are plain structural recursion that the kernel
evaluates directly.
-/

/-- Character strings of the embedded programs, as lists of characters. -/
abbrev Str := List Char

/-- Python `str.lower()` (ASCII case fold, as `Char.toLower`). -/
def lowerStr (s : Str) : Str := s.map Char.toLower

/-- Python `str.upper()` (ASCII case fold, as `Char.toUpper`). -/
def upperStr (s : Str) : Str := s.map Char.toUpper

/-- `pre` is a prefix of `s` (Python `str.startswith`). -/
def isPrefixL : Str → Str → Bool
  | [], _ => true
  | _ :: _, [] => false
  | a :: as, b :: bs => a == b && isPrefixL as bs

/-- `pat` occurs as a contiguous substring of `s` (Python `pat in s`). -/
def containsSeq (pat : Str) : Str → Bool
  | [] => isPrefixL pat []
  | c :: rest => isPrefixL pat (c :: rest) || containsSeq pat rest

/-- Python whitespace characters recognised by `str.strip()`. -/
def isPySpace (c : Char) : Bool :=
  c == ' ' || c == '\t' || c == '\n' || c == '\r' || c == '\x0b' || c == '\x0c'

/-- Python `str.strip()`: drop leading and trailing whitespace. -/
def stripWS (s : Str) : Str :=
  ((s.dropWhile isPySpace).reverse.dropWhile isPySpace).reverse

/-- Python `" ".join(parts)`. -/
def joinSpace (parts : List Str) : Str := List.intercalate " ".data parts

/-! ## Email posture checker — `src/checks/email_dmarc_spf_checker.py` -/

/-- The exceptions `lookup_txt_records` catches around
`dns.resolver.resolve(name, "TXT")`: the three named resolver exceptions
and the final bare `except Exception`. -/
inductive DnsError where
  | nxdomain
  | noAnswer
  | noNameservers
  | otherException
deriving DecidableEq

/-- Outcome of the library call `dns.resolver.resolve(name, "TXT")`:
either the list of rdata texts (`rdata.to_text()` for each answer), or a
raised exception. -/
abbrev ResolveResult := Except DnsError (List Str)

/-- Python `txt.strip('"')`: remove all leading and trailing
double-quote characters. -/
def stripQuotes (s : Str) : Str :=
  ((s.dropWhile (· == '"')).reverse.dropWhile (· == '"')).reverse

/-- Python `txt.replace('" "', " ")`: rewrite each non-overlapping
occurrence of the three-character sequence quote-space-quote to a single
space, scanning left to right. -/
def replaceQuoteSpace : Str → Str
  | [] => []
  | c :: rest =>
    if isPrefixL ['"', ' ', '"'] (c :: rest) then
      ' ' :: replaceQuoteSpace (rest.drop 2)
    else
      c :: replaceQuoteSpace rest
termination_by s => s.length
decreasing_by
  · simp only [List.length_drop, List.length_cons]; omega
  · simp only [List.length_cons]; omega

/-- `lookup_txt_records`, applied to the outcome of the resolve call: on
success each rdata text is `strip('"')`-ed and has `'" "'` collapsed to a
space; every caught exception (all of them are) yields `[]`. -/
def lookup_txt_records (res : ResolveResult) : List Str :=
  match res with
  | .ok answers => answers.map (fun rdata => replaceQuoteSpace (stripQuotes rdata))
  | .error _ => []

/-- The record-selection loop of `get_spf_record`: return the first TXT
record whose lower-cased text starts with `v=spf1`, else `None`. -/
def spfSelect : List Str → Option Str
  | [] => none
  | r :: rest =>
    if isPrefixL "v=spf1".data (lowerStr r) then some r else spfSelect rest

/-- `get_spf_record`, given the resolve outcome for the domain. -/
def get_spf_record (res : ResolveResult) : Option Str :=
  spfSelect (lookup_txt_records res)

/-- The record-selection loop of `get_dmarc_record`: first TXT record
whose lower-cased text starts with `v=dmarc1`, else `None`. -/
def dmarcSelect : List Str → Option Str
  | [] => none
  | r :: rest =>
    if isPrefixL "v=dmarc1".data (lowerStr r) then some r else dmarcSelect rest

/-- `get_dmarc_record`, given the resolve outcome for `_dmarc.<domain>`. -/
def get_dmarc_record (res : ResolveResult) : Option Str :=
  dmarcSelect (lookup_txt_records res)

/-- `assess_spf`: returns `(spf_present, spf_record, spf_assessment)`.
The Python test `if not spf` treats both `None` and the empty string as
absent. -/
def assess_spf (spf : Option Str) : Bool × Str × Str :=
  match spf with
  | none => (false, [], "No SPF record found.".data)
  | some s =>
    if s.isEmpty then (false, [], "No SPF record found.".data)
    else
      let record := stripWS s
      let lower := lowerStr record
      let p1 : List Str :=
        if containsSeq " -all".data lower then
          ["Restrictive policy (-all).".data]
        else if containsSeq " ~all".data lower then
          ["Soft fail policy (~all). Consider -all if mature.".data]
        else if containsSeq " ?all".data lower || containsSeq "all".data lower then
          ["Permissive \x27all\x27 mechanism. Review necessity.".data]
        else []
      let p2 := p1 ++
        (if containsSeq "include:".data lower then
          ["Uses include mechanisms (check third-party senders).".data] else [])
      let p3 := p2 ++
        (if containsSeq " ip4:".data lower || containsSeq " ip6:".data lower then
          ["Direct IP mechanisms configured.".data] else [])
      let p4 := p3 ++
        (if containsSeq " redirect=".data lower then
          ["Uses redirect (advanced configuration).".data] else [])
      let p5 := if p4.isEmpty then
          ["SPF present but could not derive specific guidance.".data] else p4
      (true, record, joinSpace p5)

/-- Python `record.split(sep)` for a single-character separator. -/
def splitOnChar (sep : Char) : Str → List Str
  | [] => [[]]
  | c :: rest =>
    let r := splitOnChar sep rest
    if c == sep then [] :: r
    else
      match r with
      | [] => [[c]]
      | h :: t => (c :: h) :: t

/-- Python dict assignment `d[k] = v`: overwrite in place if the key is
present, else append a new entry. -/
def dictInsertStr (d : List (Str × Str)) (k v : Str) : List (Str × Str) :=
  if d.any (fun p => p.1 == k) then
    d.map (fun p => if p.1 == k then (k, v) else p)
  else d ++ [(k, v)]

/-- Python `tags.get(k, dflt)` on the association list built by
`dictInsertStr` (keys are unique, so the first match is the entry). -/
def tagsGet (tags : List (Str × Str)) (k dflt : Str) : Str :=
  match tags.find? (fun p => p.1 == k) with
  | some p => p.2
  | none => dflt

/-- `parse_dmarc_tag`: split the record on `;`, and for each part that
contains `=`, split at the first `=` into key (stripped, lower-cased)
and value (stripped). -/
def parse_dmarc_tag (record : Str) : List (Str × Str) :=
  (splitOnChar ';' record).foldl
    (fun tags part0 =>
      let part := stripWS part0
      if containsSeq "=".data part then
        let k := part.takeWhile (fun c => c != '=')
        let v := (part.dropWhile (fun c => c != '=')).drop 1
        dictInsertStr tags (lowerStr (stripWS k)) (stripWS v)
      else tags)
    []

/-- `assess_dmarc`: returns
`(dmarc_present, dmarc_record, dmarc_policy, dmarc_assessment)`. -/
def assess_dmarc (dmarc : Option Str) : Bool × Str × Str × Str :=
  match dmarc with
  | none => (false, [], [], "No DMARC record found.".data)
  | some s =>
    if s.isEmpty then (false, [], [], "No DMARC record found.".data)
    else
      let record := stripWS s
      let tags := parse_dmarc_tag record
      let policy := lowerStr (tagsGet tags "p".data [])
      let pct := tagsGet tags "pct".data "100".data
      let rua := tagsGet tags "rua".data []
      let p1 : List Str :=
        if policy == "none".data then
          ["Monitoring-only DMARC policy (p=none). Consider quarantine/reject.".data]
        else if policy == "quarantine".data then
          ["Quarantine policy in place (p=quarantine).".data]
        else if policy == "reject".data then
          ["Strong enforcement policy (p=reject).".data]
        else
          ["DMARC policy missing or unrecognised; review required.".data]
      let p2 := p1 ++
        (if rua.isEmpty then
          ["No aggregate reporting address (rua) configured.".data]
        else ["Aggregate reporting (rua) configured.".data])
      let p3 := p2 ++
        (if pct == "100".data then []
         else ["DMARC applies to ".data ++ pct ++ "% of messages (pct=".data
               ++ pct ++ ").".data])
      let policyOut := if policy.isEmpty then "(not set)".data else policy
      (true, record, policyOut, joinSpace p3)

/-- The DKIM loop of `get_dkim_record`: return on the first record `r`
with `"v=DKIM1" in r.upper()` — note the pattern keeps its lowercase `v`
while the record is upper-cased, exactly as in the source — else fall
back to the first record of the (non-empty) list. -/
def dkimScan (sel : Str) (fallback : Str) : List Str → Bool × Str × Bool × Str
  | [] => (true, sel, true, fallback)
  | r :: rest =>
    if containsSeq "v=DKIM1".data (upperStr r) then (true, sel, true, r)
    else dkimScan sel fallback rest

/-- `get_dkim_record`, given the selector (Python treats `None` and the
empty string as no selector) and the TXT records found at
`selector._domainkey.<domain>`. Returns
`(dkim_checked, dkim_selector, dkim_present, dkim_record)`. -/
def get_dkim_record (selector : Option Str) (txt_records : List Str) :
    Bool × Str × Bool × Str :=
  match selector with
  | none => (false, [], false, [])
  | some sel =>
    if sel.isEmpty then (false, [], false, [])
    else if txt_records.isEmpty then (true, sel, false, [])
    else dkimScan sel (txt_records.headD []) txt_records

/-! ## Readiness scorer — `src/score_ir_readiness.py` -/

def MIN_Q_ID : ℤ := 1
def MAX_Q_ID : ℤ := 34
def MIN_SCORE : ℤ := 0
def MAX_SCORE : ℤ := 3

/-- `CATEGORY_MAP.get(q, "Uncategorised")`: the static id-to-category
table built from the seven `range` comprehensions. -/
def CATEGORY_MAP (q : ℤ) : String :=
  if 1 ≤ q ∧ q ≤ 7 then "Preparation & Governance"
  else if 8 ≤ q ∧ q ≤ 14 then "Detection & Reporting"
  else if 15 ≤ q ∧ q ≤ 18 then "Containment"
  else if 19 ≤ q ∧ q ≤ 22 then "Eradication"
  else if 23 ≤ q ∧ q ≤ 27 then "Recovery"
  else if 28 ≤ q ∧ q ≤ 31 then "Lessons Learned"
  else if 32 ≤ q ∧ q ≤ 34 then "Advanced Controls"
  else "Uncategorised"

/-- Python dict assignment `scores[q] = s` on integer keys: overwrite in
place if present, else append. -/
def dictInsertInt (d : List (ℤ × ℤ)) (k v : ℤ) : List (ℤ × ℤ) :=
  if d.any (fun p => p.1 == k) then
    d.map (fun p => if p.1 == k then (k, v) else p)
  else d ++ [(k, v)]

/-- The row loop of `read_responses`, over rows whose `question_id` and
`score` fields have already passed `int()` conversion (a failed
conversion raises before the range checks, also aborting the run). The
`question_id` range is checked before the `score` range, as in the
source. -/
def readRowsLoop (scores : List (ℤ × ℤ)) : List (ℤ × ℤ) → Except String (List (ℤ × ℤ))
  | [] => .ok scores
  | (q, s) :: rest =>
    if q < MIN_Q_ID || q > MAX_Q_ID then
      .error ("Question ID out of range (1–34): " ++ toString q)
    else if s < MIN_SCORE || s > MAX_SCORE then
      .error ("Score for Q" ++ toString q ++ " out of range (0–3): " ++ toString s)
    else readRowsLoop (dictInsertInt scores q s) rest

/-- `read_responses` from the parsed rows onward: validate every row
into the scores dict, then reject an empty result. An uncaught
`ValueError` is modelled as `Except.error` (it aborts the run, so the
process exits non-zero). -/
def read_responses (rows : List (ℤ × ℤ)) : Except String (List (ℤ × ℤ)) :=
  match readRowsLoop [] rows with
  | .error e => .error e
  | .ok scores =>
    if scores.isEmpty then .error "No responses found in the input file."
    else .ok scores

structure CategoryScore where
  name : String
  total : ℤ
  max_total : ℤ
  questions : List ℤ
deriving DecidableEq

/-- Python `categories[nm] = f(categories[nm])` on the insertion-ordered
category dict. -/
def updateCat (cats : List CategoryScore) (nm : String)
    (f : CategoryScore → CategoryScore) : List CategoryScore :=
  cats.map (fun c => if c.name == nm then f c else c)

/-- The initialisation loop of `build_category_scores`: for each
question id 1–34 create its category on first sight, append the id to
`questions`, and add `MAX_SCORE` to `max_total`. -/
def initCategories : List CategoryScore :=
  (List.range 34).foldl
    (fun cats i =>
      let q : ℤ := (i : ℤ) + 1
      let nm := CATEGORY_MAP q
      let cats1 :=
        if cats.any (fun c => c.name == nm) then cats
        else cats ++ [⟨nm, 0, 0, []⟩]
      updateCat cats1 nm (fun c =>
        { c with questions := c.questions ++ [q], max_total := c.max_total + MAX_SCORE }))
    []

/-- The scoring loop of `build_category_scores`:
`categories[CATEGORY_MAP.get(q)].total += score` per response. (A key
outside the table would raise `KeyError` in Python; here the update has
no effect — unreachable for responses accepted by `read_responses`.) -/
def addResponseScores (cats : List CategoryScore)
    (responses : List (ℤ × ℤ)) : List CategoryScore :=
  responses.foldl
    (fun cs r => updateCat cs (CATEGORY_MAP r.1) (fun c => { c with total := c.total + r.2 }))
    cats

def build_category_scores (responses : List (ℤ × ℤ)) : List CategoryScore :=
  addResponseScores initCategories responses

/-- Round-half-to-even of the exact rational `a / b` (for `a ≥ 0`,
`b > 0`), the tie rule of Python `round`. -/
def roundHalfEven (a b : ℤ) : ℤ :=
  let q := a / b
  let r := a % b
  if 2 * r < b then q
  else if 2 * r > b then q + 1
  else if q % 2 == 0 then q else q + 1

/-- `compute_overall_score`: summed totals and the score normalised to a
30-point scale. The Python float `round((total / max_total) * 30, 1)` is
represented exactly in tenths: the third component is ten times the
normalised score. Every reachable exact value `total * 300 / 102` is at
distance at least `1/34` from the nearest rounding tie, so rounding the
exact rational half-to-even agrees with Python rounding of the float. -/
def compute_overall_score (cats : List CategoryScore) : ℤ × ℤ × ℤ :=
  let total := (cats.map (·.total)).sum
  let max_total := (cats.map (·.max_total)).sum
  if max_total == 0 then (0, 0, 0)
  else (total, max_total, roundHalfEven (total * 300) max_total)

/-- `classify_maturity`, stated on the normalised score in tenths
(`normalized_score <= 10` iff `tenths ≤ 100`, and so on). -/
def classify_maturity (tenths : ℤ) : String :=
  if tenths ≤ 100 then "Initial"
  else if tenths ≤ 180 then "Basic"
  else if tenths ≤ 250 then "Intermediate"
  else "Advanced"

/-- The scoring pipeline of `main` from parsed CSV rows onward: validate
into the score map, aggregate categories, compute
`(total, max_total, normalised score in tenths)`, classify maturity. -/
def scoreRows (rows : List (ℤ × ℤ)) : Except String (ℤ × ℤ × ℤ × String) :=
  match read_responses rows with
  | .error e => .error e
  | .ok responses =>
    let overall := compute_overall_score (build_category_scores responses)
    .ok (overall.1, overall.2.1, overall.2.2, classify_maturity overall.2.2)

/-! ## RACI generator — `src/tools/generator/build_raci_from_yaml.py` -/

/-- Parsed YAML values, as handed over by `yaml.safe_load`. -/
inductive Yaml where
  | null
  | str (s : String)
  | int (n : ℤ)
  | bool (b : Bool)
  | list (items : List Yaml)
  | map (entries : List (String × Yaml))

/-- Python `str(v)` for the scalar values the generator passes through
it (role names, task names). Composite values are given a placeholder
rendering; the generator only ever applies `str` to scalars in the
claims considered here. -/
def yamlToStr : Yaml → String
  | .null => "None"
  | .str s => s
  | .int n => toString n
  | .bool b => if b then "True" else "False"
  | .list _ => "<list>"
  | .map _ => "<dict>"

/-- Python `m.get(k, dflt)` on a parsed YAML mapping (keys unique). -/
def yamlGet (m : List (String × Yaml)) (k : String) (dflt : Yaml) : Yaml :=
  match m.find? (fun p => p.1 == k) with
  | some p => p.2
  | none => dflt

def yamlIsList : Yaml → Bool
  | .list _ => true
  | _ => false

/-- The key/type validation of `load_yaml` after a successful parse into
a mapping: a missing `roles` or `tasks` key, or a non-list value at
either key, prints the message to stderr and calls `sys.exit(1)`. -/
def load_yaml_validate (doc : List (String × Yaml)) :
    Except String (List (String × Yaml)) :=
  if !(doc.any (fun p => p.1 == "roles")) || !(doc.any (fun p => p.1 == "tasks")) then
    .error "Error: YAML must contain \x27roles\x27 and \x27tasks\x27 keys."
  else if !(yamlIsList (yamlGet doc "roles" .null)) || !(yamlIsList (yamlGet doc "tasks" .null)) then
    .error "Error: \x27roles\x27 must be a list and \x27tasks\x27 must be a list."
  else .ok doc

/-- `str(task.get("name", ""))` for one task entry. (A non-mapping task
entry would raise `AttributeError` in Python; rendered as the empty name
here, unreachable in the claims considered.) -/
def taskName (task : Yaml) : String :=
  match task with
  | .map m => yamlToStr (yamlGet m "name" (.str ""))
  | _ => ""

/-- `task.get("assignments", {}) or {}`: the assignments mapping of a
task, with `None` (and a missing key) collapsing to the empty mapping. -/
def taskAssignments (task : Yaml) : List (String × Yaml) :=
  match task with
  | .map m =>
    match yamlGet m "assignments" .null with
    | .map a => a
    | _ => []
  | _ => []

/-- The spreadsheet row appended for one task: the task name, then for
each role in order the raw value `assignments.get(role, "")`. -/
def taskRow (roles : List String) (task : Yaml) : List Yaml :=
  .str (taskName task) :: roles.map (fun role => yamlGet (taskAssignments task) role (.str ""))

/-- The worksheet contents written by `build_raci_excel`: the header row
`"Task / Activity"` followed by the `str()`-ed roles, then one row per
task. Cell styling and column widths do not alter cell values. -/
def build_raci_excel (doc : List (String × Yaml)) : List (List Yaml) :=
  let roles : List String :=
    match yamlGet doc "roles" (.list []) with
    | .list xs => xs.map yamlToStr
    | _ => []
  let tasks : List Yaml :=
    match yamlGet doc "tasks" (.list []) with
    | .list xs => xs
    | _ => []
  (Yaml.str "Task / Activity" :: roles.map Yaml.str) :: tasks.map (taskRow roles)

/-- Observable outcome of a RACI generator run: the process exit code,
the message printed to stderr (if any), and the spreadsheet written (if
any). -/
structure RunOutcome where
  exitCode : ℕ
  stderrMsg : Option String
  sheet : Option (List (List Yaml))

/-- `main` of the RACI generator from the parsed YAML document onward: a
validation failure prints to stderr and exits with status 1 before any
spreadsheet is produced; otherwise the spreadsheet is written. -/
def raciMain (doc : List (String × Yaml)) : RunOutcome :=
  match load_yaml_validate doc with
  | .error msg => ⟨1, some msg, none⟩
  | .ok data => ⟨0, none, some (build_raci_excel data)⟩

/-! ## Helper lemmas -/

/-- No character upper-cases to a lowercase `v`: lowercase letters map
into `A`–`Z`, and any character left unchanged is not `v` (since `v`
itself is lower-cased and hence mapped away). -/
theorem toUpper_ne_lowercase_v (c : Char) : Char.toUpper c ≠ 'v' := by
  simp only [Char.toUpper]
  by_cases h : c.toNat ≥ 97 ∧ c.toNat ≤ 122
  · rw [if_pos h]
    obtain ⟨h1, h2⟩ := h
    obtain ⟨k, hk⟩ := Nat.exists_eq_add_of_le h1
    have hk25 : k ≤ 25 := by omega
    rw [hk]
    interval_cases k <;> decide
  · rw [if_neg h]
    intro hc
    rw [hc] at h
    exact h (by decide)

/-- If a pattern beginning with `c` occurs as a substring, then `c`
occurs in the searched string. -/
theorem mem_of_containsSeq_cons (c : Char) (pat s : Str)
    (h : containsSeq (c :: pat) s = true) : c ∈ s := by
  induction s with
  | nil => simp [containsSeq, isPrefixL] at h
  | cons a as ih =>
    simp only [containsSeq, Bool.or_eq_true] at h
    rcases h with h1 | h2
    · simp only [isPrefixL, Bool.and_eq_true, beq_iff_eq] at h1
      rw [h1.1]
      exact List.mem_cons_self a as
    · exact List.mem_cons_of_mem a (ih h2)

/-- The source's DKIM version test compares the mixed-case pattern
`v=DKIM1` against the upper-cased record, so it never succeeds. -/
theorem containsSeq_dkim_false (r : Str) :
    containsSeq "v=DKIM1".data (upperStr r) = false := by
  cases hb : containsSeq "v=DKIM1".data (upperStr r) with
  | false => rfl
  | true =>
    exfalso
    have hdata : "v=DKIM1".data = 'v' :: "=DKIM1".data := by decide
    rw [hdata] at hb
    have hmem : 'v' ∈ upperStr r := mem_of_containsSeq_cons 'v' "=DKIM1".data _ hb
    obtain ⟨c, _, hc⟩ := List.mem_map.mp hmem
    exact toUpper_ne_lowercase_v c hc

/-- Consequently the DKIM loop always runs to completion and returns
its fallback value. -/
theorem dkimScan_fallback (sel fallback : Str) (records : List Str) :
    dkimScan sel fallback records = (true, sel, true, fallback) := by
  induction records with
  | nil => rfl
  | cons r rest ih => simp [dkimScan, containsSeq_dkim_false r, ih]

/-- The SPF selection loop returns the first record whose lower-cased
text starts with `v=spf1`. -/
theorem spfSelect_eq_find (records : List Str) :
    spfSelect records
      = records.find? (fun r => isPrefixL "v=spf1".data (lowerStr r)) := by
  induction records with
  | nil => rfl
  | cons r rest ih =>
    rw [spfSelect, List.find?]
    by_cases h : isPrefixL "v=spf1".data (lowerStr r) = true
    · simp [h]
    · simp only [Bool.not_eq_true] at h
      simp [h, ih]

/-- The DMARC selection loop returns the first record whose lower-cased
text starts with `v=dmarc1`. -/
theorem dmarcSelect_eq_find (records : List Str) :
    dmarcSelect records
      = records.find? (fun r => isPrefixL "v=dmarc1".data (lowerStr r)) := by
  induction records with
  | nil => rfl
  | cons r rest ih =>
    rw [dmarcSelect, List.find?]
    by_cases h : isPrefixL "v=dmarc1".data (lowerStr r) = true
    · simp [h]
    · simp only [Bool.not_eq_true] at h
      simp [h, ih]

/-! ## Claim theorems -/

/-- C2: the SPF and DMARC lookups do return the first TXT record whose
text starts case-insensitively with `v=spf1` / `v=dmarc1` (and `none`
when no record matches), but the DKIM lookup does not select by the
`v=DKIM1` version tag at all: its test compares the mixed-case pattern
against the upper-cased record, so the scan never matches and the first
TXT record is returned unconditionally. At the failing input below, a
record carrying the version tag is present, yet the unrelated first
record is returned. -/
theorem C2_selection_semantics :
    (∀ records : List Str,
      spfSelect records
        = records.find? (fun r => isPrefixL "v=spf1".data (lowerStr r))) ∧
    (∀ records : List Str,
      dmarcSelect records
        = records.find? (fun r => isPrefixL "v=dmarc1".data (lowerStr r))) ∧
    (∀ sel fallback : Str, ∀ records : List Str,
      dkimScan sel fallback records = (true, sel, true, fallback)) ∧
    isPrefixL "v=dkim1".data (lowerStr "v=DKIM1; k=rsa; p=MIIB".data) = true ∧
    get_dkim_record (some "s1".data) ["unrelated txt".data, "v=DKIM1; k=rsa; p=MIIB".data]
      = (true, "s1".data, true, "unrelated txt".data) := by
  refine ⟨spfSelect_eq_find, dmarcSelect_eq_find, dkimScan_fallback, by decide, ?_⟩
  rw [get_dkim_record]
  simp only [List.isEmpty, List.headD]
  rw [if_neg (by decide), if_neg (by decide)]
  exact dkimScan_fallback _ _ _

/-- C3: every caught resolver exception makes `lookup_txt_records`
return the empty list, so the SPF and DMARC lookups report no record and
the assessments say none was found. -/
theorem C3_dns_errors_swallowed (e : DnsError) :
    lookup_txt_records (.error e) = [] ∧
    get_spf_record (.error e) = none ∧
    get_dmarc_record (.error e) = none ∧
    assess_spf (get_spf_record (.error e))
      = (false, [], "No SPF record found.".data) ∧
    assess_dmarc (get_dmarc_record (.error e))
      = (false, [], [], "No DMARC record found.".data) :=
  ⟨rfl, rfl, rfl, rfl, rfl⟩

/-- C5: on the SPF record `v=spf1 include:example.com -all`, `assess_spf`
reports SPF present and its assessment text contains both `Restrictive
policy` and the include-mechanisms note. -/
theorem C5_spf_restrictive_include :
    (assess_spf (some "v=spf1 include:example.com -all".data)).1 = true ∧
    containsSeq "Restrictive policy".data
      (assess_spf (some "v=spf1 include:example.com -all".data)).2.2 = true ∧
    containsSeq "include mechanisms".data
      (assess_spf (some "v=spf1 include:example.com -all".data)).2.2 = true := by
  decide

/-- C6: on the DMARC record `v=DMARC1; p=none; pct=50`, `assess_dmarc`
reports DMARC present with policy `none`, and its assessment contains
both the monitoring-only flag and the 50% `pct` note. -/
theorem C6_dmarc_none_pct50 :
    (assess_dmarc (some "v=DMARC1; p=none; pct=50".data)).1 = true ∧
    (assess_dmarc (some "v=DMARC1; p=none; pct=50".data)).2.2.1 = "none".data ∧
    containsSeq "Monitoring-only DMARC policy (p=none)".data
      (assess_dmarc (some "v=DMARC1; p=none; pct=50".data)).2.2.2 = true ∧
    containsSeq "DMARC applies to 50% of messages (pct=50)".data
      (assess_dmarc (some "v=DMARC1; p=none; pct=50".data)).2.2.2 = true := by
  decide

/-- C7: for a provided selector and a non-empty TXT record list none of
whose records contains a `v=DKIM1` tag (case-insensitively),
`get_dkim_record` reports DKIM checked and present and returns the first
TXT record of the list. -/
theorem C7_dkim_fallback_first_record (sel : Str) (records : List Str)
    (hsel : sel ≠ []) (hne : records ≠ [])
    (hnotag : ∀ r ∈ records, containsSeq "V=DKIM1".data (upperStr r) = false) :
    get_dkim_record (some sel) records = (true, sel, true, records.headD []) := by
  obtain ⟨r, rest, rfl⟩ := List.exists_cons_of_ne_nil hne
  obtain ⟨c, cs, rfl⟩ := List.exists_cons_of_ne_nil hsel
  rw [get_dkim_record]
  simp only [List.isEmpty, List.headD]
  rw [if_neg (by simp), if_neg (by simp)]
  exact dkimScan_fallback _ _ _

/-- Witness for C7 at a concrete selector and record list. -/
theorem C7_witness :
    (("s1".data : Str) ≠ []) ∧ ((["some txt".data] : List Str) ≠ []) ∧
    (∀ r ∈ (["some txt".data] : List Str),
      containsSeq "V=DKIM1".data (upperStr r) = false) ∧
    get_dkim_record (some "s1".data) ["some txt".data]
      = (true, "s1".data, true, (["some txt".data] : List Str).headD []) :=
  ⟨by decide, by decide, by decide,
    C7_dkim_fallback_first_record "s1".data ["some txt".data]
      (by decide) (by decide) (by decide)⟩

/-- `updateCat` preserves every category's `max_total` and `questions`
when its update function does. -/
theorem updateCat_map_pair (cats : List CategoryScore) (nm : String)
    (f : CategoryScore → CategoryScore)
    (hf : ∀ c, (f c).max_total = c.max_total ∧ (f c).questions = c.questions) :
    (updateCat cats nm f).map (fun c => (c.max_total, c.questions))
      = cats.map (fun c => (c.max_total, c.questions)) := by
  induction cats with
  | nil => rfl
  | cons c cs ih =>
    simp only [updateCat, List.map_cons] at ih ⊢
    rw [ih]
    by_cases h : (c.name == nm) = true
    · rw [if_pos h, (hf c).1, (hf c).2]
    · rw [if_neg h]

/-- The scoring loop touches only `total`: `max_total` and `questions`
of every category are unchanged by `addResponseScores`. -/
theorem addResponseScores_map_pair (responses : List (ℤ × ℤ))
    (cats : List CategoryScore) :
    (addResponseScores cats responses).map (fun c => (c.max_total, c.questions))
      = cats.map (fun c => (c.max_total, c.questions)) := by
  induction responses generalizing cats with
  | nil => rfl
  | cons r rest ih =>
    simp only [addResponseScores, List.foldl_cons] at *
    rw [ih]
    exact updateCat_map_pair _ _ _ (fun c => ⟨rfl, rfl⟩)

/-- The `max_total` column of the built categories equals that of the
freshly initialised categories, whatever the responses. -/
theorem build_map_max (responses : List (ℤ × ℤ)) :
    (build_category_scores responses).map (fun c => c.max_total)
      = initCategories.map (fun c => c.max_total) := by
  have h := congrArg (List.map Prod.fst)
    (addResponseScores_map_pair responses initCategories)
  simpa [build_category_scores, List.map_map, Function.comp] using h

set_option maxRecDepth 40000 in
/-- C10: for every response map accepted by the scorer, the overall
maximum total is 102 (34 questions times the maximum score 3),
independently of which question ids appear; moreover each built category
carries a maximum of 3 points per question of the category. -/
theorem C10_overall_max_always_102 (responses : List (ℤ × ℤ))
    (hvalid : ∀ p ∈ responses, 1 ≤ p.1 ∧ p.1 ≤ 34 ∧ 0 ≤ p.2 ∧ p.2 ≤ 3) :
    (compute_overall_score (build_category_scores responses)).2.1 = 102 ∧
    ∀ cat ∈ build_category_scores responses,
      cat.max_total = 3 * cat.questions.length := by
  constructor
  · have hmax : ((build_category_scores responses).map (fun c => c.max_total)).sum
        = (102 : ℤ) := by
      rw [build_map_max]; decide
    simp only [compute_overall_score]
    rw [hmax]
    norm_num
  · intro cat hcat
    have hinit : ∀ c ∈ initCategories, c.max_total = 3 * c.questions.length := by
      decide
    have hpair : (cat.max_total, cat.questions)
        ∈ initCategories.map (fun c => (c.max_total, c.questions)) := by
      rw [← addResponseScores_map_pair responses initCategories]
      exact List.mem_map_of_mem _ hcat
    obtain ⟨c, hc, heq⟩ := List.mem_map.mp hpair
    rw [Prod.mk.injEq] at heq
    rw [← heq.1, ← heq.2]
    exact hinit c hc

set_option maxRecDepth 40000 in
/-- Witness for C10 at a one-row response map. -/
theorem C10_witness :
    (∀ p ∈ ([((1 : ℤ), (2 : ℤ))] : List (ℤ × ℤ)),
      1 ≤ p.1 ∧ p.1 ≤ 34 ∧ 0 ≤ p.2 ∧ p.2 ≤ 3) ∧
    ((compute_overall_score (build_category_scores [((1 : ℤ), (2 : ℤ))])).2.1 = 102 ∧
     ∀ cat ∈ build_category_scores [((1 : ℤ), (2 : ℤ))],
       cat.max_total = 3 * cat.questions.length) :=
  ⟨by decide, C10_overall_max_always_102 [(1, 2)] (by decide)⟩

set_option maxRecDepth 40000 in
/-- C1: all 34 questions scored 3 give total 102/102, normalised score
30.0 (300 tenths) and maturity `Advanced`; all scored 0 give 0/102,
normalised score 0.0 and maturity `Initial`. -/
theorem C1_full_and_zero_inputs :
    scoreRows ((List.range 34).map (fun i => ((i : ℤ) + 1, 3)))
      = .ok (102, 102, 300, "Advanced") ∧
    scoreRows ((List.range 34).map (fun i => ((i : ℤ) + 1, 0)))
      = .ok (0, 102, 0, "Initial") :=
  ⟨rfl, rfl⟩

/-- A row with an out-of-range question id or score drives the row loop
of `read_responses` into an error, whatever scores were accumulated. -/
theorem readRowsLoop_error_of_bad (q s : ℤ)
    (hbad : q < 1 ∨ 34 < q ∨ s < 0 ∨ 3 < s) :
    ∀ rows : List (ℤ × ℤ), (q, s) ∈ rows →
      ∀ scores, ∃ msg, readRowsLoop scores rows = .error msg := by
  intro rows
  induction rows with
  | nil => intro hmem; cases hmem
  | cons hd tl ih =>
    intro hmem scores
    obtain ⟨q0, s0⟩ := hd
    rw [readRowsLoop]
    by_cases h1 : (q0 < MIN_Q_ID || q0 > MAX_Q_ID) = true
    · rw [if_pos h1]; exact ⟨_, rfl⟩
    · rw [if_neg h1]
      by_cases h2 : (s0 < MIN_SCORE || s0 > MAX_SCORE) = true
      · rw [if_pos h2]; exact ⟨_, rfl⟩
      · rw [if_neg h2]
        rcases List.mem_cons.mp hmem with heq | htl
        · exfalso
          rw [Prod.mk.injEq] at heq
          obtain ⟨rfl, rfl⟩ := heq
          simp only [MIN_Q_ID, MAX_Q_ID, MIN_SCORE, MAX_SCORE,
            Bool.or_eq_true, decide_eq_true_eq] at h1 h2
          omega
        · exact ih htl _

/-- C4: every parsed row whose score falls outside 0–3 or whose
question id falls outside 1–34 makes `read_responses` raise a
validation error, so the whole scoring pipeline aborts with that error
(the uncaught `ValueError` exits the process non-zero); no such row is
accepted into the score map. -/
theorem C4_out_of_range_row_aborts (rows : List (ℤ × ℤ)) (q s : ℤ)
    (hmem : (q, s) ∈ rows)
    (hbad : q < 1 ∨ 34 < q ∨ s < 0 ∨ 3 < s) :
    ∃ msg, read_responses rows = .error msg ∧ scoreRows rows = .error msg := by
  obtain ⟨msg, hmsg⟩ := readRowsLoop_error_of_bad q s hbad rows hmem []
  have hread : read_responses rows = .error msg := by
    simp only [read_responses, hmsg]
  exact ⟨msg, hread, by simp only [scoreRows, hread]⟩

set_option maxRecDepth 40000 in
/-- Witness for C4 at the single row `question_id = 40, score = 2`. -/
theorem C4_witness :
    (((40 : ℤ), (2 : ℤ)) ∈ ([((40 : ℤ), (2 : ℤ))] : List (ℤ × ℤ))) ∧
    ∃ msg, read_responses [((40 : ℤ), (2 : ℤ))] = .error msg ∧
      scoreRows [((40 : ℤ), (2 : ℤ))] = .error msg :=
  ⟨by decide, C4_out_of_range_row_aborts [(40, 2)] 40 2 (by decide) (by decide)⟩

/-- C8: if the roles list has `role` at position `j` and the task at
position `i` does not assign `role`, then row `i + 1` of the generated
worksheet (row 0 being the header) carries the empty string at column
`j + 1` (column 0 being the task name). -/
theorem C8_unassigned_role_blank (doc : List (String × Yaml))
    (rolesY tasksY : List Yaml) (i j : ℕ) (task : Yaml) (role : String)
    (hroles : yamlGet doc "roles" (.list []) = .list rolesY)
    (htasks : yamlGet doc "tasks" (.list []) = .list tasksY)
    (hti : tasksY.get? i = some task)
    (hrj : (rolesY.map yamlToStr).get? j = some role)
    (hunassigned : ∀ p ∈ taskAssignments task, p.1 ≠ role) :
    ∃ row, (build_raci_excel doc).get? (i + 1) = some row ∧
      row.get? (j + 1) = some (.str "") := by
  have hfind : (taskAssignments task).find? (fun p => p.1 == role) = none := by
    apply List.find?_eq_none.mpr
    intro p hp
    simpa using hunassigned p hp
  refine ⟨taskRow (rolesY.map yamlToStr) task, ?_, ?_⟩
  · simp only [build_raci_excel, hroles, htasks]
    rw [List.get?_cons_succ, List.get?_map, hti]
    rfl
  · simp only [taskRow]
    rw [List.get?_cons_succ, List.get?_map, hrj]
    simp [yamlGet, hfind]

/-- Witness for C8: one role, one task assigning only a different
role; the generated cell for the unassigned role is blank. -/
theorem C8_witness :
    (∀ p ∈ taskAssignments (Yaml.map
        [("name", Yaml.str "Incident Logging"),
         ("assignments", Yaml.map [("IT Team", Yaml.str "R")])]),
      p.1 ≠ "IR Lead") ∧
    ∃ row,
      (build_raci_excel
        [("roles", Yaml.list [Yaml.str "IR Lead"]),
         ("tasks", Yaml.list [Yaml.map
           [("name", Yaml.str "Incident Logging"),
            ("assignments", Yaml.map [("IT Team", Yaml.str "R")])]])]).get? 1
        = some row ∧
      row.get? 1 = some (.str "") :=
  ⟨by decide,
    C8_unassigned_role_blank
      [("roles", Yaml.list [Yaml.str "IR Lead"]),
       ("tasks", Yaml.list [Yaml.map
         [("name", Yaml.str "Incident Logging"),
          ("assignments", Yaml.map [("IT Team", Yaml.str "R")])]])]
      [Yaml.str "IR Lead"]
      [Yaml.map [("name", Yaml.str "Incident Logging"),
        ("assignments", Yaml.map [("IT Team", Yaml.str "R")])]]
      0 0
      (Yaml.map [("name", Yaml.str "Incident Logging"),
        ("assignments", Yaml.map [("IT Team", Yaml.str "R")])])
      "IR Lead" rfl rfl rfl rfl (by decide)⟩

/-- C9: a parsed YAML document lacking the `roles` key or lacking the
`tasks` key makes the generator print the descriptive message to
standard error and exit with status 1, and no spreadsheet is
produced. -/
theorem C9_missing_keys_abort (doc : List (String × Yaml))
    (hmiss : (∀ p ∈ doc, p.1 ≠ "roles") ∨ (∀ p ∈ doc, p.1 ≠ "tasks")) :
    raciMain doc =
      ⟨1, some "Error: YAML must contain \x27roles\x27 and \x27tasks\x27 keys.",
        none⟩ := by
  have hcond : (!(doc.any (fun p => p.1 == "roles"))
      || !(doc.any (fun p => p.1 == "tasks"))) = true := by
    rcases hmiss with h | h
    · have hfalse : doc.any (fun p => p.1 == "roles") = false := by
        apply List.any_eq_false.mpr
        intro p hp
        simpa using h p hp
      simp [hfalse]
    · have hfalse : doc.any (fun p => p.1 == "tasks") = false := by
        apply List.any_eq_false.mpr
        intro p hp
        simpa using h p hp
      simp [hfalse]
  simp only [raciMain, load_yaml_validate]
  rw [if_pos hcond]

/-- Witness for C9 at a document carrying only a `tasks` key. -/
theorem C9_witness :
    (∀ p ∈ ([("tasks", Yaml.list [])] : List (String × Yaml)), p.1 ≠ "roles") ∧
    raciMain [("tasks", Yaml.list [])] =
      ⟨1, some "Error: YAML must contain \x27roles\x27 and \x27tasks\x27 keys.",
        none⟩ :=
  ⟨by decide, C9_missing_keys_abort [("tasks", Yaml.list [])] (Or.inl (by decide))⟩

/-- Witness for C3 at the `NXDOMAIN` exception. -/
theorem C3_witness :
    lookup_txt_records (.error .nxdomain) = [] ∧
    get_spf_record (.error .nxdomain) = none ∧
    get_dmarc_record (.error .nxdomain) = none ∧
    assess_spf (get_spf_record (.error .nxdomain))
      = (false, [], "No SPF record found.".data) ∧
    assess_dmarc (get_dmarc_record (.error .nxdomain))
      = (false, [], [], "No DMARC record found.".data) :=
  C3_dns_errors_swallowed .nxdomain
